import Mathlib

/-!
Shallow embedding of `scripts/health-check.js` from the Analytic-Dashboard
repository: a health-check coordinator that probes a fixed registry of
services, classifies each probe outcome into a tri-state verdict
(healthy / warning / error), renders console output, and derives a process
exit code from the summary counts.

Network I/O (`makeRequest`) is modelled by an environment
`env : String → ProbeOutcome` mapping each URL to the outcome its probe
produced; `JSON.parse` is modelled by an oracle
`parse : String → Option JsonInfo` giving the parse result of a body.
Everything downstream of those host calls is translated directly from the
source.
-/

/-- A registry entry, from the `services` configuration array. -/
structure Service where
  name : String
  url : String
  critical : Bool
deriving DecidableEq, Repr

/-- The module-level `services` configuration list (lines 7-23). -/
def services : List Service :=
  [ { name := "Vanna AI Service", url := "http://localhost:8000/health", critical := true },
    { name := "API Backend", url := "http://localhost:4000/api/chat/health", critical := true },
    { name := "Web Frontend", url := "http://localhost:3000", critical := false } ]

/-- ANSI color constants (lines 26-32). -/
def colorGreen : String := "\x1b[32m"

def colorRed : String := "\x1b[31m"

def colorYellow : String := "\x1b[33m"

def colorBlue : String := "\x1b[34m"

def colorReset : String := "\x1b[0m"

/-- A JavaScript error value as observed by `checkService`'s catch block:
an optional `code` property (e.g. `"ECONNREFUSED"`) and a `message`. -/
structure NetError where
  code : Option String
  message : String
deriving DecidableEq, Repr

/-- Outcome of one `makeRequest` call: either the promise resolves with a
status code and buffered body, or it rejects with an error. -/
inductive ProbeOutcome where
  | success (status : Nat) (data : String)
  | failure (err : NetError)
deriving DecidableEq, Repr

/-- The optional JSON fields `checkService` reads from a parsed 2xx body
(lines 75-84): `status`, `services` (already stringified), `version`. -/
structure JsonInfo where
  status : Option String
  services : Option String
  version : Option String
deriving DecidableEq, Repr

/-- A per-service result object as returned by `checkService` /
`checkDatabase`: `{service, status, code?, error?}`. -/
structure Verdict where
  service : String
  status : String
  code : Option Nat
  error : Option String
deriving DecidableEq, Repr

/-- `err.message.includes(pat)` for a non-empty pattern. -/
def hasSubstr (s pat : String) : Bool :=
  1 < (s.splitOn pat).length

/-- The suggestion lines printed in `checkService`'s catch block
(lines 102-106): `ECONNREFUSED` gets the "make sure it is running" hint,
a message containing `timeout` gets the "slow or overloaded" hint,
anything else prints nothing. -/
def suggestionLines (service : Service) (err : NetError) : List String :=
  if err.code = some "ECONNREFUSED" then
    ["  Suggestion: Make sure " ++ service.name ++ " is running"]
  else if hasSubstr err.message "timeout" then
    ["  Suggestion: Service may be slow to respond or overloaded"]
  else
    []

/-- The prober's failure taxonomy, read off from the only tests the code
performs on a caught error: connection refused (`err.code === 'ECONNREFUSED'`),
timed out (`err.message.includes('timeout')`, the prober's own timeout
rejection uses message `"Request timeout"`), or any other failure. -/
inductive FailureKind where
  | connectionRefused
  | timedOut
  | other
deriving DecidableEq, Repr

/-- Classify a caught error by the same tests the code uses, in the same
order. -/
def NetError.kind (err : NetError) : FailureKind :=
  if err.code = some "ECONNREFUSED" then .connectionRefused
  else if hasSubstr err.message "timeout" then .timedOut
  else .other

/-- The metadata lines printed for a 2xx body, given the `JSON.parse`
result (lines 74-87): fields `status`, `services`, `version` when present;
a parse failure prints nothing. -/
def metaLines (parsed : Option JsonInfo) : List String :=
  match parsed with
  | some info =>
      (match info.status with
       | some s => ["  Status: " ++ s]
       | none => []) ++
      (match info.services with
       | some s => ["  Services: " ++ s]
       | none => []) ++
      (match info.version with
       | some v => ["  Version: " ++ v]
       | none => [])
  | none => []

/-- `checkService(service)` (lines 64-110), with the probe's outcome and
the `JSON.parse` oracle passed in explicitly. Returns the console lines it
printed and the result object it returned. -/
def checkService (parse : String → Option JsonInfo) (service : Service)
    (outcome : ProbeOutcome) : List String × Verdict :=
  let checking := colorBlue ++ "Checking " ++ service.name ++ "..." ++ colorReset
  match outcome with
  | .success status data =>
      if 200 ≤ status ∧ status < 300 then
        ([checking,
          colorGreen ++ "✓ " ++ service.name ++ " is healthy (" ++ toString status ++ ")"
            ++ colorReset] ++ metaLines (parse data),
         { service := service.name, status := "healthy", code := some status, error := none })
      else
        ([checking,
          colorYellow ++ "⚠ " ++ service.name ++ " returned " ++ toString status ++ colorReset],
         { service := service.name, status := "warning", code := some status, error := none })
  | .failure err =>
      let color := if service.critical then colorRed else colorYellow
      let symbol := if service.critical then "✗" else "⚠"
      ([checking,
        color ++ symbol ++ " " ++ service.name ++ " is not accessible" ++ colorReset,
        "  Error: " ++ err.message] ++ suggestionLines service err,
       { service := service.name, status := "error", code := none, error := some err.message })

/-- The URL of the database proxy check (line 117). -/
def dbStatsUrl : String := "http://localhost:4000/api/stats"

/-- `checkDatabase()` (lines 112-132): probes the backend stats endpoint and
maps the outcome with the same 2xx policy. -/
def checkDatabase (outcome : ProbeOutcome) : List String × Verdict :=
  let checking := colorBlue ++ "Checking Database Connection..." ++ colorReset
  match outcome with
  | .success status _ =>
      if 200 ≤ status ∧ status < 300 then
        ([checking, colorGreen ++ "✓ Database connection is working" ++ colorReset],
         { service := "Database", status := "healthy", code := none, error := none })
      else
        ([checking,
          colorYellow ++ "⚠ Database connection may have issues (API returned "
            ++ toString status ++ ")" ++ colorReset],
         { service := "Database", status := "warning", code := some status, error := none })
  | .failure err =>
      ([checking,
        colorRed ++ "✗ Database connection failed" ++ colorReset,
        "  Error: " ++ err.message,
        "  Suggestion: Check DATABASE_URL and ensure PostgreSQL is running"],
       { service := "Database", status := "error", code := none, error := some err.message })

/-- Count of verdicts with a given status, as in
`results.filter(r => r.status === s).length` (lines 154-156). -/
def countStatus (s : String) (results : List Verdict) : Nat :=
  (results.filter (fun r => r.status = s)).length

/-- The result of one full run: everything printed, the ordered verdict
list, the summary counts, and the exit code. -/
structure RunResult where
  output : List String
  report : List Verdict
  healthy : Nat
  warnings : Nat
  errors : Nat
  exitCode : Nat
deriving Repr

/-- The static remediation block printed when any error exists
(lines 163-169). -/
def remediationLines : List String :=
  [ colorRed ++ "Critical issues detected. Please check the services above." ++ colorReset,
    "Common solutions:",
    "1. Start Vanna service: cd apps/services/vanna && python -m uvicorn app.main:app --port 8000",
    "2. Start API backend: cd apps/api && npm run dev",
    "3. Start web frontend: cd apps/web && npm run dev",
    "4. Check environment variables in .env files",
    "5. Ensure PostgreSQL database is running" ]

/-- `main()` (lines 134-178) generalised over the registry list: checks each
service in order, then the database proxy, tallies the three counts, prints
the summary, and exits 1 when any error exists, else 0. The probe
environment `env` maps each URL to its outcome. -/
def runMainWith (parse : String → Option JsonInfo) (env : String → ProbeOutcome)
    (svcs : List Service) : RunResult :=
  let svcResults := svcs.map (fun s => checkService parse s (env s.url))
  let dbResult := checkDatabase (env dbStatsUrl)
  let results := svcResults.map Prod.snd ++ [dbResult.snd]
  let healthy := countStatus "healthy" results
  let warnings := countStatus "warning" results
  let errors := countStatus "error" results
  let exitCode := if errors > 0 then 1 else if warnings > 0 then 0 else 0
  let tailLines :=
    if errors > 0 then remediationLines
    else if warnings > 0 then
      [colorYellow ++ "Some services have warnings. The system may still work but with limited functionality." ++ colorReset]
    else
      [colorGreen ++ "All systems are healthy! 🎉" ++ colorReset]
  { output :=
      [colorBlue ++ "=== Analytics Dashboard Health Check ===" ++ colorReset]
        ++ (svcResults.map Prod.fst).flatten ++ dbResult.fst
        ++ [colorBlue ++ "=== Summary ===" ++ colorReset,
            colorGreen ++ "Healthy: " ++ toString healthy ++ colorReset,
            colorYellow ++ "Warnings: " ++ toString warnings ++ colorReset,
            colorRed ++ "Errors: " ++ toString errors ++ colorReset]
        ++ tailLines,
    report := results,
    healthy := healthy,
    warnings := warnings,
    errors := errors,
    exitCode := exitCode }

/-- `main()` on the actual module-level registry. -/
def runMain (parse : String → Option JsonInfo) (env : String → ProbeOutcome) : RunResult :=
  runMainWith parse env services

/-! ### Helper lemmas about the evaluator and the run -/

theorem checkService_status_eq (parse : String → Option JsonInfo) (service : Service)
    (outcome : ProbeOutcome) :
    (checkService parse service outcome).2.status =
      match outcome with
      | .success code _ => if 200 ≤ code ∧ code < 300 then "healthy" else "warning"
      | .failure _ => "error" := by
  cases outcome with
  | success code data =>
      dsimp [checkService]
      by_cases h : 200 ≤ code ∧ code < 300 <;> simp [h]
  | failure err => rfl

theorem checkService_service_eq (parse : String → Option JsonInfo) (service : Service)
    (outcome : ProbeOutcome) :
    (checkService parse service outcome).2.service = service.name := by
  cases outcome with
  | success code data =>
      dsimp [checkService]
      by_cases h : 200 ≤ code ∧ code < 300 <;> simp [h]
  | failure err => rfl

theorem checkService_snd_ignores_critical (parse : String → Option JsonInfo) (s : Service)
    (b : Bool) (outcome : ProbeOutcome) :
    (checkService parse { s with critical := b } outcome).2 = (checkService parse s outcome).2 := by
  cases outcome with
  | success code data => dsimp [checkService]
  | failure err => rfl

theorem checkService_status_cases (parse : String → Option JsonInfo) (service : Service)
    (outcome : ProbeOutcome) :
    (checkService parse service outcome).2.status = "healthy" ∨
    (checkService parse service outcome).2.status = "warning" ∨
    (checkService parse service outcome).2.status = "error" := by
  rw [checkService_status_eq]
  cases outcome with
  | success code data =>
      by_cases h : 200 ≤ code ∧ code < 300 <;> simp [h]
  | failure err => simp

theorem checkDatabase_status_cases (outcome : ProbeOutcome) :
    (checkDatabase outcome).2.status = "healthy" ∨
    (checkDatabase outcome).2.status = "warning" ∨
    (checkDatabase outcome).2.status = "error" := by
  cases outcome with
  | success code data =>
      dsimp [checkDatabase]
      by_cases h : 200 ≤ code ∧ code < 300 <;> simp [h]
  | failure err => simp [checkDatabase]

theorem runMainWith_report (parse : String → Option JsonInfo) (env : String → ProbeOutcome)
    (svcs : List Service) :
    (runMainWith parse env svcs).report =
      svcs.map (fun s => (checkService parse s (env s.url)).2)
        ++ [(checkDatabase (env dbStatsUrl)).2] := by
  dsimp [runMainWith]
  rw [List.map_map]
  rfl

theorem runMainWith_errors (parse : String → Option JsonInfo) (env : String → ProbeOutcome)
    (svcs : List Service) :
    (runMainWith parse env svcs).errors = countStatus "error" (runMainWith parse env svcs).report :=
  rfl

theorem runMainWith_exitCode (parse : String → Option JsonInfo) (env : String → ProbeOutcome)
    (svcs : List Service) :
    (runMainWith parse env svcs).exitCode =
      if 0 < (runMainWith parse env svcs).errors then 1 else 0 := by
  dsimp [runMainWith]
  split <;> simp

/-! ### Claim theorems -/

/-- C1: for every final Report, the process exit code is 1 iff the number of
verdicts with status `error` is positive, and otherwise it is 0 regardless of
how many verdicts have status `warning`. -/
theorem exit_code_iff_error_count (parse : String → Option JsonInfo)
    (env : String → ProbeOutcome) :
    ((runMain parse env).exitCode = 1 ↔
       0 < countStatus "error" (runMain parse env).report) ∧
    (countStatus "error" (runMain parse env).report = 0 → (runMain parse env).exitCode = 0) := by
  have hx : (runMain parse env).exitCode =
      if 0 < countStatus "error" (runMain parse env).report then 1 else 0 := by
    rw [show runMain parse env = runMainWith parse env services from rfl, ← runMainWith_errors]
    exact runMainWith_exitCode parse env services
  rw [hx]
  constructor
  · split <;> simp_all
  · intro h
    simp [h]

/-- Witness for C1 at a concrete run: every probe returns 200, two verdicts
are healthy but none is an error, and the exit code is 0. -/
theorem exit_code_iff_error_count_witness :
    (runMain (fun _ => none) (fun _ => ProbeOutcome.success 200 "")).exitCode = 0 :=
  (exit_code_iff_error_count (fun _ => none) (fun _ => ProbeOutcome.success 200 "")).2 (by decide)

/-- C2: the verdict status produced by `checkService` is `healthy` for a
response with status code in [200, 300), `warning` for a response with any
other status code, and `error` for any failure. -/
theorem verdict_status_policy (parse : String → Option JsonInfo) (service : Service) :
    (∀ code data, 200 ≤ code → code < 300 →
        (checkService parse service (.success code data)).2.status = "healthy") ∧
    (∀ code data, ¬ (200 ≤ code ∧ code < 300) →
        (checkService parse service (.success code data)).2.status = "warning") ∧
    (∀ err, (checkService parse service (.failure err)).2.status = "error") := by
  refine ⟨fun code data h1 h2 => ?_, fun code data h => ?_, fun err => ?_⟩ <;>
    rw [checkService_status_eq]
  · simp [h1, h2]
  · simp [h]

/-- Witness for C2: a 200 response is healthy, a 503 response is a warning,
and a failure is an error, for the first registry entry. -/
theorem verdict_status_policy_witness :
    (checkService (fun _ => none) { name := "Vanna AI Service", url := "http://localhost:8000/health", critical := true } (.success 200 "")).2.status = "healthy" ∧
    (checkService (fun _ => none) { name := "Vanna AI Service", url := "http://localhost:8000/health", critical := true } (.success 503 "")).2.status = "warning" ∧
    (checkService (fun _ => none) { name := "Vanna AI Service", url := "http://localhost:8000/health", critical := true } (.failure ⟨none, "boom"⟩)).2.status = "error" :=
  ⟨(verdict_status_policy _ _).1 200 "" (by decide) (by decide),
   (verdict_status_policy _ _).2.1 503 "" (by decide),
   (verdict_status_policy _ _).2.2 ⟨none, "boom"⟩⟩

theorem checkDatabase_service_eq (outcome : ProbeOutcome) :
    (checkDatabase outcome).2.service = "Database" := by
  cases outcome with
  | success code data =>
      dsimp [checkDatabase]
      split <;> rfl
  | failure err => rfl

theorem runMainWith_report_length (parse : String → Option JsonInfo)
    (env : String → ProbeOutcome) (svcs : List Service) :
    (runMainWith parse env svcs).report.length = svcs.length + 1 := by
  rw [runMainWith_report]
  simp

theorem runMainWith_report_getElem (parse : String → Option JsonInfo)
    (env : String → ProbeOutcome) (svcs : List Service) (i : Nat) (h : i < svcs.length) :
    (runMainWith parse env svcs).report[i]? =
      some (checkService parse (svcs.get ⟨i, h⟩) (env (svcs.get ⟨i, h⟩).url)).2 := by
  have hm : i < (svcs.map (fun s => (checkService parse s (env s.url)).2)).length := by
    simpa using h
  rw [runMainWith_report, List.getElem?_append_left hm, List.getElem?_map,
      List.getElem?_eq_getElem h]
  rfl

theorem runMainWith_report_getLast (parse : String → Option JsonInfo)
    (env : String → ProbeOutcome) (svcs : List Service) :
    (runMainWith parse env svcs).report.getLast? = some (checkDatabase (env dbStatsUrl)).2 := by
  rw [runMainWith_report]
  exact List.getLast?_concat _

theorem runMainWith_output_summary (parse : String → Option JsonInfo)
    (env : String → ProbeOutcome) (svcs : List Service) :
    (colorBlue ++ "=== Summary ===" ++ colorReset) ∈ (runMainWith parse env svcs).output := by
  dsimp [runMainWith]
  simp

theorem runMainWith_report_ignores_critical (parse : String → Option JsonInfo)
    (env : String → ProbeOutcome) (svcs : List Service) (f : Service → Bool) :
    (runMainWith parse env (svcs.map (fun t => { t with critical := f t }))).report
      = (runMainWith parse env svcs).report := by
  rw [runMainWith_report, runMainWith_report, List.map_map]
  congr 1
  apply List.map_eq_map_iff.mpr
  intro s _
  exact checkService_snd_ignores_critical parse s (f s) (env s.url)

theorem runMainWith_exitCode_ignores_critical (parse : String → Option JsonInfo)
    (env : String → ProbeOutcome) (svcs : List Service) (f : Service → Bool) :
    (runMainWith parse env (svcs.map (fun t => { t with critical := f t }))).exitCode
      = (runMainWith parse env svcs).exitCode := by
  rw [runMainWith_exitCode, runMainWith_exitCode, runMainWith_errors, runMainWith_errors,
      runMainWith_report_ignores_critical]

/-- C3: `checkService` turns every probe outcome, failures included, into a
verdict: each registry entry's verdict appears in the report as a function of
that entry's own probe alone, the report always holds one verdict per entry
plus the database check, the summary block is always printed, and the run
always reaches an exit-code decision (0 or 1). -/
theorem run_never_propagates (parse : String → Option JsonInfo) (env : String → ProbeOutcome) :
    (∀ i (h : i < services.length),
        (runMain parse env).report[i]? =
          some (checkService parse (services.get ⟨i, h⟩) (env (services.get ⟨i, h⟩).url)).2) ∧
    (runMain parse env).report.length = services.length + 1 ∧
    (colorBlue ++ "=== Summary ===" ++ colorReset) ∈ (runMain parse env).output ∧
    ((runMain parse env).exitCode = 0 ∨ (runMain parse env).exitCode = 1) := by
  rw [show runMain parse env = runMainWith parse env services from rfl]
  refine ⟨fun i h => runMainWith_report_getElem parse env services i h,
    runMainWith_report_length parse env services,
    runMainWith_output_summary parse env services, ?_⟩
  rw [runMainWith_exitCode]
  split <;> simp

/-- Witness for C3 at a run where every probe fails with a connection
refusal: the first registry entry still gets its verdict in the report. -/
theorem run_never_propagates_witness :
    (runMain (fun _ => none)
        (fun _ => ProbeOutcome.failure ⟨some "ECONNREFUSED", "connect ECONNREFUSED"⟩)).report[0]? =
      some (checkService (fun _ => none) (services.get ⟨0, by decide⟩)
        ((fun _ => ProbeOutcome.failure ⟨some "ECONNREFUSED", "connect ECONNREFUSED"⟩)
          (services.get ⟨0, by decide⟩).url)).2 :=
  (run_never_propagates (fun _ => none)
    (fun _ => ProbeOutcome.failure ⟨some "ECONNREFUSED", "connect ECONNREFUSED"⟩)).1 0 (by decide)

/-- C4: flipping any service's `critical` flag changes neither the verdict
`checkService` returns (in particular its status) nor the run's exit code;
only the rendered output can differ. -/
theorem critical_flag_cosmetic (parse : String → Option JsonInfo) (env : String → ProbeOutcome)
    (svcs : List Service) (f : Service → Bool) (s : Service) (b : Bool)
    (outcome : ProbeOutcome) :
    (checkService parse { s with critical := b } outcome).2 = (checkService parse s outcome).2 ∧
    (runMainWith parse env (svcs.map (fun t => { t with critical := f t }))).exitCode
      = (runMainWith parse env svcs).exitCode :=
  ⟨checkService_snd_ignores_critical parse s b outcome,
   runMainWith_exitCode_ignores_critical parse env svcs f⟩

/-- C5: every run yields exactly one verdict per registered target, in
registry order (the i-th verdict carries the i-th target's name), and the
database proxy check's verdict is the last element of the report. -/
theorem report_order (parse : String → Option JsonInfo) (env : String → ProbeOutcome) :
    (runMain parse env).report.length = services.length + 1 ∧
    (∀ i (h : i < services.length),
        ((runMain parse env).report[i]?).map Verdict.service =
          some (services.get ⟨i, h⟩).name) ∧
    (runMain parse env).report.getLast? = some (checkDatabase (env dbStatsUrl)).2 ∧
    ((runMain parse env).report.getLast?).map Verdict.service = some "Database" := by
  rw [show runMain parse env = runMainWith parse env services from rfl]
  refine ⟨runMainWith_report_length parse env services, fun i h => ?_,
    runMainWith_report_getLast parse env services, ?_⟩
  · rw [runMainWith_report_getElem parse env services i h]
    simp [checkService_service_eq]
  · rw [runMainWith_report_getLast]
    simp [checkDatabase_service_eq]

/-- Witness for C5: in a concrete all-200 run, the second report entry names
the second registry target. -/
theorem report_order_witness :
    ((runMain (fun _ => none) (fun _ => ProbeOutcome.success 200 "")).report[1]?).map
        Verdict.service = some (services.get ⟨1, by decide⟩).name :=
  (report_order (fun _ => none) (fun _ => ProbeOutcome.success 200 "")).2.1 1 (by decide)

/-- C6 counterexample: the registry does not list the primary backend API
first — its name order is not
`["API Backend", "Vanna AI Service", "Web Frontend"]`. -/
theorem registry_order_claim_false :
    ¬ services.map Service.name = ["API Backend", "Vanna AI Service", "Web Frontend"] := by
  decide

/-- C6 (amended): the registry probes first the AI/query backend
(`Vanna AI Service`, critical), second the primary backend API
(`API Backend`, critical), third the user-facing frontend (`Web Frontend`,
non-critical), and the database proxy check comes after all three (last in
the report). -/
theorem registry_order_actual (parse : String → Option JsonInfo) (env : String → ProbeOutcome) :
    services.map (fun s => (s.name, s.critical)) =
      [("Vanna AI Service", true), ("API Backend", true), ("Web Frontend", false)] ∧
    (runMain parse env).report.getLast? = some (checkDatabase (env dbStatsUrl)).2 := by
  refine ⟨by decide, ?_⟩
  rw [show runMain parse env = runMainWith parse env services from rfl]
  exact runMainWith_report_getLast parse env services

/-- C7 counterexample: a 301 redirect response on the frontend target yields
a `warning` verdict, not a `healthy` one. -/
theorem frontend_redirect_not_healthy :
    (checkService (fun _ => none) (services.get ⟨2, by decide⟩)
        (.success 301 "")).2.status = "warning" ∧
    ¬ (checkService (fun _ => none) (services.get ⟨2, by decide⟩)
        (.success 301 "")).2.status = "healthy" := by
  constructor <;> decide

/-- C7 (amended): for the frontend target's reachability probe, any 2xx
response yields a `healthy` verdict, while a redirect (3xx) response yields a
`warning` verdict. -/
theorem frontend_status_policy (parse : String → Option JsonInfo) (code : Nat) (data : String) :
    (200 ≤ code → code < 300 →
      (checkService parse (services.get ⟨2, by decide⟩)
          (.success code data)).2.status = "healthy") ∧
    (300 ≤ code → code < 400 →
      (checkService parse (services.get ⟨2, by decide⟩)
          (.success code data)).2.status = "warning") := by
  constructor <;> intro h1 h2 <;> rw [checkService_status_eq]
  · simp [h1, h2]
  · have hn : ¬ (200 ≤ code ∧ code < 300) := by omega
    simp [hn]

/-- Witness for the amended C7: a 204 response on the frontend is healthy and
a 302 redirect is a warning. -/
theorem frontend_status_policy_witness :
    (checkService (fun _ => none) (services.get ⟨2, by decide⟩)
        (.success 204 "")).2.status = "healthy" ∧
    (checkService (fun _ => none) (services.get ⟨2, by decide⟩)
        (.success 302 "")).2.status = "warning" :=
  ⟨(frontend_status_policy (fun _ => none) 204 "").1 (by decide) (by decide),
   (frontend_status_policy (fun _ => none) 302 "").2 (by decide) (by decide)⟩

/-- C8: the suggestion printed for a failing probe is exactly the static
table over the failure kind — connection refused gets the "make sure it is
running" hint, timed out gets the "slow or overloaded" hint, any other kind
gets nothing — and those lines are appended to the failure output. -/
theorem suggestion_static_table (parse : String → Option JsonInfo) (service : Service)
    (err : NetError) :
    suggestionLines service err =
      (match err.kind with
       | .connectionRefused => ["  Suggestion: Make sure " ++ service.name ++ " is running"]
       | .timedOut => ["  Suggestion: Service may be slow to respond or overloaded"]
       | .other => []) ∧
    (checkService parse service (.failure err)).1 =
      [colorBlue ++ "Checking " ++ service.name ++ "..." ++ colorReset,
       (if service.critical then colorRed else colorYellow) ++
         (if service.critical then "✗" else "⚠") ++ " " ++ service.name ++
         " is not accessible" ++ colorReset,
       "  Error: " ++ err.message] ++ suggestionLines service err := by
  constructor
  · dsimp [suggestionLines, NetError.kind]
    by_cases h1 : err.code = some "ECONNREFUSED"
    · simp [h1]
    · by_cases h2 : hasSubstr err.message "timeout" = true <;> simp [h1, h2]
  · rfl

/-- C9: for a 2xx outcome the printed lines are the healthy header plus the
metadata lines extracted from the JSON parse result (`status`, `services`,
`version` when present; nothing when parsing fails), and the verdict is
`healthy` independently of the parse result — a malformed body is never
surfaced as a warning or error. -/
theorem healthy_metadata (parse : String → Option JsonInfo) (service : Service)
    (code : Nat) (data : String) (h1 : 200 ≤ code) (h2 : code < 300) :
    ((checkService parse service (.success code data)).1 =
      [colorBlue ++ "Checking " ++ service.name ++ "..." ++ colorReset,
       colorGreen ++ "✓ " ++ service.name ++ " is healthy (" ++ toString code ++ ")"
         ++ colorReset] ++ metaLines (parse data)) ∧
    metaLines none = [] ∧
    (checkService parse service (.success code data)).2.status = "healthy" ∧
    (checkService parse service (.success code data)).2 =
      (checkService (fun _ => none) service (.success code data)).2 := by
  refine ⟨?_, rfl, ?_, ?_⟩
  · dsimp [checkService]
    rw [if_pos ⟨h1, h2⟩]
  · rw [checkService_status_eq]
    simp [h1, h2]
  · dsimp [checkService]
    rw [if_pos ⟨h1, h2⟩, if_pos ⟨h1, h2⟩]

/-- Witness for C9: a 200 response whose body parses with all three metadata
fields still yields a healthy verdict. -/
theorem healthy_metadata_witness :
    (checkService (fun _ => some ⟨some "healthy", some "db:up", some "1.0.0"⟩)
        { name := "API Backend", url := "http://localhost:4000/api/chat/health", critical := true }
        (.success 200 "body")).2.status = "healthy" :=
  (healthy_metadata (fun _ => some ⟨some "healthy", some "db:up", some "1.0.0"⟩)
    { name := "API Backend", url := "http://localhost:4000/api/chat/health", critical := true }
    200 "body" (by decide) (by decide)).2.2.1

theorem countStatus_partition (l : List Verdict)
    (h : ∀ v ∈ l, v.status = "healthy" ∨ v.status = "warning" ∨ v.status = "error") :
    countStatus "healthy" l + countStatus "warning" l + countStatus "error" l = l.length := by
  induction l with
  | nil => rfl
  | cons v t ih =>
      have hv := h v (List.mem_cons_self v t)
      have ht := ih (fun w hw => h w (List.mem_cons_of_mem v hw))
      dsimp [countStatus] at *
      rcases hv with h1 | h1 | h1 <;> simp [List.filter_cons, h1] <;> omega

/-- C10: every verdict in a run's report has status `healthy`, `warning` or
`error`, so the three summary counts partition the report: their sum is the
report's length. -/
theorem counts_partition (parse : String → Option JsonInfo) (env : String → ProbeOutcome) :
    (∀ v ∈ (runMain parse env).report,
        v.status = "healthy" ∨ v.status = "warning" ∨ v.status = "error") ∧
    (runMain parse env).healthy + (runMain parse env).warnings + (runMain parse env).errors
      = (runMain parse env).report.length := by
  rw [show runMain parse env = runMainWith parse env services from rfl]
  have hall : ∀ v ∈ (runMainWith parse env services).report,
      v.status = "healthy" ∨ v.status = "warning" ∨ v.status = "error" := by
    intro v hv
    rw [runMainWith_report] at hv
    rcases List.mem_append.mp hv with hv | hv
    · rcases List.mem_map.mp hv with ⟨s, _, rfl⟩
      exact checkService_status_cases parse s (env s.url)
    · have hv2 : v = (checkDatabase (env dbStatsUrl)).2 := by simpa using hv
      rw [hv2]
      exact checkDatabase_status_cases (env dbStatsUrl)
  refine ⟨hall, ?_⟩
  exact countStatus_partition (runMainWith parse env services).report hall

/-- Witness for C10 at a concrete run where every probe returns 503: the
counts sum to the report length. -/
theorem counts_partition_witness :
    (runMain (fun _ => none) (fun _ => ProbeOutcome.success 503 "")).healthy
      + (runMain (fun _ => none) (fun _ => ProbeOutcome.success 503 "")).warnings
      + (runMain (fun _ => none) (fun _ => ProbeOutcome.success 503 "")).errors
      = (runMain (fun _ => none) (fun _ => ProbeOutcome.success 503 "")).report.length :=
  (counts_partition (fun _ => none) (fun _ => ProbeOutcome.success 503 "")).2
